import Mathlib

/-!
Verification of the status-determination logic of the Best Agent API
(`src/api.js`).  The pure core of the repository — `daysUntilDate`,
`cleanPhone`, the package-channel classifiers and `determineStatus` — is
embedded below.  JavaScript values that may be `null`/`undefined`/empty are
modelled with `Option`; date strings are modelled as millisecond timestamps
(an `Int`), with the process clock `now` passed explicitly (the source reads
it via `new Date()`); `setHours(0,0,0,0)` is modelled as flooring the
timestamp to a multiple of a day.  JavaScript's `null`-coercing comparisons
(`null <= 75` is `true`, `null > 75` is `false`, since `Number(null) = 0`)
are modelled by `jsLe`/`jsLt`/`jsGt` on `Option Int`.
-/

/-- One day in milliseconds: `1000 * 60 * 60 * 24` (api.js:105). -/
def dayMs : Int := 86400000

/-- `d.setHours(0, 0, 0, 0)` (api.js:103-104): truncate a millisecond
timestamp to the start of its day. -/
def truncMidnight (t : Int) : Int := dayMs * Int.fdiv t dayMs

/-- `Math.ceil(x / dayMs)` for an integer millisecond difference `x`
(api.js:105): ceiling division by `dayMs`. -/
def ceilDivDay (x : Int) : Int := -(Int.fdiv (-x) dayMs)

/-- `daysUntilDate` (api.js:99-106): `null` for an absent date, otherwise the
ceiling of the midnight-truncated difference in days.  `now` is the process
clock in milliseconds. -/
def daysUntilDate (dateString : Option Int) (now : Int) : Option Int :=
  match dateString with
  | none => none
  | some target => some (ceilDivDay (truncMidnight target - truncMidnight now))

/-- The digit characters of a string, in order: `phone.replace(/\D/g, '')`
(api.js:111). -/
def digitChars (s : String) : List Char := s.data.filter Char.isDigit

/-- `cleanPhone` (api.js:108-118): strip non-digits, then drop a leading `1`
from an 11-digit result.  `cleaned.startsWith('1')` on the digit string is
rendered as `head? = some '1'`. -/
def cleanPhone (phone : String) : String :=
  if phone = "" then ""
  else
    let cleaned := digitChars phone
    if cleaned.length = 11 ∧ cleaned.head? = some '1' then
      String.mk (cleaned.drop 1)
    else
      String.mk cleaned

/-- `ONLINE_SCHEDULING_PACKAGES` (api.js:166). -/
def ONLINE_SCHEDULING_PACKAGES : List String := ["ECRA", "ECRB", "ECRD", "EKCA"]

/-- `isPhoneSchedulingPackage` (api.js:170-174); `!pkgCode` is false for
`null`/`undefined`/the empty string. -/
def isPhoneSchedulingPackage (pkgCode : Option String) : Bool :=
  match pkgCode with
  | none => false
  | some s =>
    if s = "" then false
    else
      let code := s.toUpper
      code = "EM" || code = "ES" || code.startsWith "EX" || code.startsWith "EZ"

/-- `pkg_code2 && ONLINE_SCHEDULING_PACKAGES.includes(pkg_code2.toUpperCase())`
(api.js:184). -/
def isOnlineSchedulingPackage (pkgCode : Option String) : Bool :=
  match pkgCode with
  | none => false
  | some s => !s.isEmpty && ONLINE_SCHEDULING_PACKAGES.contains s.toUpper

/-- The fields of a `RIMS_DATA` customer record that `determineStatus`
destructures (api.js:177-181).  Numeric amounts are `Option Int` (absent or a
value); date strings are `Option Int` millisecond timestamps (absent/empty is
`none`); `decReady !== true` only distinguishes `some true` from everything
else, so `Option Bool` suffices. -/
structure CustomerRecord where
  val_dep : Option Int
  conf_deposit : Option Int
  asgn_trv_dt : Option Int
  tm : Option String
  conf_valid_code : Option String
  cash_back_amt : Option Int
  Fnl_Doc_MO_Date : Option Int
  date_print_enc : Option Int
  decReady : Option Bool
  date_htl_book : Option Int
  date_agncy_book : Option Int
  pkg_code2 : Option String
  deriving DecidableEq, Repr

/-- The numeric part of the record returned by `getPackageFromDestsel`
(api.js:141-151): `ref_dep` and `deposit` default to `0` there, and
`total_expected` is constructed as their sum.  The descriptive fields
(`destination`, `nights`, `vacation_type`, `vaca_desc`) are never read by
`determineStatus` and are omitted. -/
structure PackageInfo where
  ref_dep : Int
  deposit : Int
  total_expected : Int
  deriving DecidableEq, Repr

/-- `getPackageFromDestsel`'s construction of the numeric fields
(api.js:138-146): `total_expected = refDeposit + confDeposit`. -/
def mkPackageInfo (refDeposit confDeposit : Int) : PackageInfo :=
  { ref_dep := refDeposit, deposit := confDeposit,
    total_expected := refDeposit + confDeposit }

/-- `val_dep || 0` (api.js:193). -/
def paidValDep (c : CustomerRecord) : Int := c.val_dep.getD 0

/-- `conf_deposit || 0` (api.js:194). -/
def paidConfDep (c : CustomerRecord) : Int := c.conf_deposit.getD 0

/-- The deposit-completion decision (api.js:200-215), verbatim structure:
with package info, first the total test, then the two single-deposit
cross-field tolerances; without package info, any positive paid field. -/
def depositsComplete (c : CustomerRecord) (packageInfo : Option PackageInfo) : Bool :=
  match packageInfo with
  | some pk =>
    if paidValDep c + paidConfDep c ≥ pk.total_expected then true
    else if 0 < pk.ref_dep ∧ pk.deposit = 0 then
      decide (paidValDep c ≥ pk.ref_dep ∨ paidConfDep c ≥ pk.ref_dep)
    else if 0 < pk.deposit ∧ pk.ref_dep = 0 then
      decide (paidValDep c ≥ pk.deposit ∨ paidConfDep c ≥ pk.deposit)
    else false
  | none => decide (0 < paidValDep c ∨ 0 < paidConfDep c)

/-- JavaScript `x <= y` where `x` may be `null` (`Number(null) = 0`). -/
def jsLe (x : Option Int) (y : Int) : Bool := x.getD 0 ≤ y

/-- JavaScript `x < y` where `x` may be `null`. -/
def jsLt (x : Option Int) (y : Int) : Bool := x.getD 0 < y

/-- JavaScript `x > y` where `x` may be `null`. -/
def jsGt (x : Option Int) (y : Int) : Bool := y < x.getD 0

/-- `asgn_trv_dt ? daysUntilDate(asgn_trv_dt) : null` (api.js:219); the
guard is redundant with `daysUntilDate`'s own `null` check. -/
def daysUntilTravel (c : CustomerRecord) (now : Int) : Option Int :=
  daysUntilDate c.asgn_trv_dt now

/-- `!tm || tm.trim() === ''` (api.js:254, 272): blank travel-rep name. -/
def tmBlank (c : CustomerRecord) : Bool :=
  match c.tm with
  | none => true
  | some t => t.trim = ""

/-- Rule 1 guard `cash_back_amt && cash_back_amt > 0 && !Fnl_Doc_MO_Date`
(api.js:224). -/
def rule1 (c : CustomerRecord) : Bool :=
  (match c.cash_back_amt with
   | some a => decide (0 < a)
   | none => false) && c.Fnl_Doc_MO_Date.isNone

/-- Rule 2 guard (api.js:230): final documents sent, or travel more than 7
days past. -/
def rule2 (c : CustomerRecord) (now : Int) : Bool :=
  c.Fnl_Doc_MO_Date.isSome ||
    ((daysUntilTravel c now).isSome && jsLt (daysUntilTravel c now) (-7))

/-- Rule 3 guard (api.js:236): hotel and agency booked, travel within 14
days.  Note: the source has no lower bound on `daysUntilTravel`. -/
def rule3 (c : CustomerRecord) (now : Int) : Bool :=
  c.date_htl_book.isSome && c.date_agncy_book.isSome &&
    (daysUntilTravel c now).isSome && jsLe (daysUntilTravel c now) 14

/-- Rule 4 guard (api.js:242): itinerary printed, travel within 45 days. -/
def rule4 (c : CustomerRecord) (now : Int) : Bool :=
  c.date_print_enc.isSome &&
    (daysUntilTravel c now).isSome && jsLe (daysUntilTravel c now) 45

/-- Rule 5 guard (api.js:248): travel rep assigned, travel within 75 days. -/
def rule5 (c : CustomerRecord) (now : Int) : Bool :=
  !tmBlank c && (daysUntilTravel c now).isSome && jsLe (daysUntilTravel c now) 75

/-- Rule 6 guard (api.js:254). -/
def rule6 (c : CustomerRecord) (p : Option PackageInfo) (now : Int) : Bool :=
  depositsComplete c p && c.asgn_trv_dt.isSome && tmBlank c &&
    (daysUntilTravel c now).isSome && jsLe (daysUntilTravel c now) 75

/-- Rule 7 guard (api.js:260). -/
def rule7 (c : CustomerRecord) (p : Option PackageInfo) : Bool :=
  depositsComplete c p && c.asgn_trv_dt.isNone

/-- Rule 8 guard (api.js:272); `daysUntilTravel > 75` is `false` in
JavaScript when `daysUntilTravel` is `null`. -/
def rule8 (c : CustomerRecord) (p : Option PackageInfo) (now : Int) : Bool :=
  depositsComplete c p && c.asgn_trv_dt.isSome && tmBlank c &&
    decide (c.conf_valid_code = some "CONFIRM") && jsGt (daysUntilTravel c now) 75

/-- Rule 9 guard (api.js:278). -/
def rule9 (c : CustomerRecord) : Bool :=
  c.asgn_trv_dt.isSome && !decide (c.conf_valid_code = some "CONFIRM") &&
    !decide (c.decReady = some true)

/-- The `deposits` object of the result (api.js:306-316).  `status` is
`'complete'`/`'pending'`; `packageInfo?.ref_dep || null` maps both a missing
package and a `0` amount to `null`. -/
structure Deposits where
  status : String
  val_dep_paid : Int
  conf_deposit_paid : Int
  total_paid : Int
  refundable_deposit_required : Option Int
  tax_deposit_required : Option Int
  expected_deposit : Option Int
  remaining : Option Int
  complete : Bool
  deriving DecidableEq, Repr

/-- The value returned by `determineStatus` (api.js:302-320). -/
structure StatusResult where
  status : String
  statusLabel : String
  agentMessage : String
  deposits : Deposits
  daysUntilTravel : Option Int
  isOnlineScheduling : Bool
  isPhoneScheduling : Bool
  deriving DecidableEq, Repr

/-- The ordered first-match rule chain of `determineStatus` (api.js:223-300),
producing the `(status, statusLabel, agentMessage)` triple.  The rule-8
message interpolates the travel date; under the timestamp model the
interpolation is rendered with `toString`. -/
def statusTriple (customer : CustomerRecord) (packageInfo : Option PackageInfo)
    (now : Int) : String × String × String :=
  if rule1 customer then
      ("Refund Pending", "Refund Pending",
       "I see there is a pending matter on your account.")
    else if rule2 customer now then
      ("Trip Complete", "Trip Complete",
       "I can see you have already traveled with us.")
    else if rule3 customer now then
      ("Travel Pending", "Travel Pending",
       "Your trip is all booked and your itinerary should have been sent.")
    else if rule4 customer now then
      ("Booking Pending", "Booking Pending",
       "Your booking is being finalized. Expect a call from our booking agent 7-14 days before your trip.")
    else if rule5 customer now then
      ("Travel Rep Assigned", "Travel Rep Assigned",
       "Your travel rep has been assigned. Be sure to answer calls from the 805 area code.")
    else if rule6 customer packageInfo now then
      ("Waiting For Travel Rep", "Waiting for Travel Rep",
       "Your travel dates are set and you are waiting for a travel rep to be assigned.")
    else if rule7 customer packageInfo then
      ("Ready to Schedule", "Ready to Schedule",
       if isOnlineSchedulingPackage customer.pkg_code2 then
         "Great news! Your deposit is all paid up and you are ready to select your travel dates. You can login to your activatemytrip.com account to select your dates."
       else if isPhoneSchedulingPackage customer.pkg_code2 then
         "Great news! Your deposit is all paid up and you are ready to select your travel dates. Would you like me to transfer you to scheduling?"
       else
         "Great news! Your deposit is all paid up and you are ready to select your travel dates.")
    else if rule8 customer packageInfo now then
      ("Dates Scheduled", "Dates Scheduled",
       "Your travel dates are all set for " ++
         (match customer.asgn_trv_dt with
          | some d => toString d
          | none => "null") ++
         ". A travel rep will be assigned 45-75 days before your trip.")
    else if rule9 customer then
      (if jsLe (daysUntilTravel customer now) 75 then
        ("Scheduled Not Confirmed - Must Reschedule", "Needs Rescheduling",
         "Your scheduled dates may no longer be available. Would you like me to transfer you to reschedule?")
      else
        ("Scheduled Not Confirmed - Can Confirm", "Needs Confirmation",
         "Your dates are scheduled but not yet confirmed. Would you like me to transfer you to confirm?"))
    else
      ("Deposit Needed", "Deposit Needed",
       if isOnlineSchedulingPackage customer.pkg_code2 then
         "I see you have activated your vacation package. You can login to your activatemytrip.com account to select your travel dates and pay your deposit with a credit card."
       else if isPhoneSchedulingPackage customer.pkg_code2 then
         "I see you have activated your vacation package. Would you like me to transfer you to scheduling so you can select your dates and pay the deposit over the phone?"
       else
         "I see you have activated your vacation package. It looks like we are just waiting on your deposit.")

/-- `determineStatus` (api.js:176-321): the deposit breakdown, days until
travel and channel flags, together with the first-match rule chain
(`statusTriple`). -/
def determineStatus (customer : CustomerRecord) (packageInfo : Option PackageInfo)
    (now : Int) : StatusResult :=
  let isOnlineScheduling := isOnlineSchedulingPackage customer.pkg_code2
  let isPhoneScheduling := isPhoneSchedulingPackage customer.pkg_code2
  let expectedTotal : Option Int := packageInfo.map fun pk => pk.total_expected
  let totalPaid := paidValDep customer + paidConfDep customer
  let dc := depositsComplete customer packageInfo
  let remaining : Option Int := expectedTotal.map fun et => max 0 (et - totalPaid)
  let dut := daysUntilTravel customer now
  let deps : Deposits :=
    { status := if dc then "complete" else "pending"
      val_dep_paid := paidValDep customer
      conf_deposit_paid := paidConfDep customer
      total_paid := totalPaid
      refundable_deposit_required :=
        match packageInfo with
        | some pk => if pk.ref_dep = 0 then none else some pk.ref_dep
        | none => none
      tax_deposit_required :=
        match packageInfo with
        | some pk => if pk.deposit = 0 then none else some pk.deposit
        | none => none
      expected_deposit := expectedTotal
      remaining := remaining
      complete := dc }
  let sta := statusTriple customer packageInfo now
  { status := sta.1
    statusLabel := sta.2.1
    agentMessage := sta.2.2
    deposits := deps
    daysUntilTravel := dut
    isOnlineScheduling := isOnlineScheduling
    isPhoneScheduling := isPhoneScheduling }

/-- The ordered rule guards of the decision list (api.js:224-300), rule 10
being the unconditional default. -/
def ruleCond (c : CustomerRecord) (p : Option PackageInfo) (now : Int) : Nat → Bool
  | 0 => rule1 c
  | 1 => rule2 c now
  | 2 => rule3 c now
  | 3 => rule4 c now
  | 4 => rule5 c now
  | 5 => rule6 c p now
  | 6 => rule7 c p
  | 7 => rule8 c p now
  | 8 => rule9 c
  | _ => true

/-- The status code each rule assigns (api.js:225-291); rule 9 splits on
`daysUntilTravel <= 75`. -/
def ruleStatus (c : CustomerRecord) (now : Int) : Nat → String
  | 0 => "Refund Pending"
  | 1 => "Trip Complete"
  | 2 => "Travel Pending"
  | 3 => "Booking Pending"
  | 4 => "Travel Rep Assigned"
  | 5 => "Waiting For Travel Rep"
  | 6 => "Ready to Schedule"
  | 7 => "Dates Scheduled"
  | 8 =>
    if jsLe (daysUntilTravel c now) 75 then "Scheduled Not Confirmed - Must Reschedule"
    else "Scheduled Not Confirmed - Can Confirm"
  | _ => "Deposit Needed"

/-- The status codes the engine can produce: the ten rules' codes, rule 9
contributing its two variants. -/
def statusCodes : List String :=
  ["Refund Pending", "Trip Complete", "Travel Pending", "Booking Pending",
   "Travel Rep Assigned", "Waiting For Travel Rep", "Ready to Schedule",
   "Dates Scheduled", "Scheduled Not Confirmed - Must Reschedule",
   "Scheduled Not Confirmed - Can Confirm", "Deposit Needed"]

/-! ### Helper lemmas -/

theorem determineStatus_complete (c : CustomerRecord) (p : Option PackageInfo) (now : Int) :
    (determineStatus c p now).deposits.complete = depositsComplete c p := rfl

theorem determineStatus_remaining (c : CustomerRecord) (p : Option PackageInfo) (now : Int) :
    (determineStatus c p now).deposits.remaining =
      (p.map fun pk => pk.total_expected).map
        (fun et => max 0 (et - (paidValDep c + paidConfDep c))) := rfl

theorem determineStatus_days (c : CustomerRecord) (p : Option PackageInfo) (now : Int) :
    (determineStatus c p now).daysUntilTravel = daysUntilTravel c now := rfl

theorem depositsComplete_some_iff (c : CustomerRecord) (pk : PackageInfo) :
    depositsComplete c (some pk) = true ↔
      (pk.total_expected ≤ paidValDep c + paidConfDep c ∨
       (0 < pk.ref_dep ∧ pk.deposit = 0 ∧
         (pk.ref_dep ≤ paidValDep c ∨ pk.ref_dep ≤ paidConfDep c)) ∨
       (0 < pk.deposit ∧ pk.ref_dep = 0 ∧
         (pk.deposit ≤ paidValDep c ∨ pk.deposit ≤ paidConfDep c))) := by
  simp only [depositsComplete]
  split_ifs with hA hB hC <;> simp <;> omega

theorem depositsComplete_none_iff (c : CustomerRecord) :
    depositsComplete c none = true ↔ (0 < paidValDep c ∨ 0 < paidConfDep c) := by
  simp [depositsComplete]

theorem depositsComplete_mono {c c' : CustomerRecord} (p : Option PackageInfo)
    (h1 : paidValDep c ≤ paidValDep c') (h2 : paidConfDep c ≤ paidConfDep c')
    (hc : depositsComplete c p = true) : depositsComplete c' p = true := by
  cases p with
  | none =>
    rw [depositsComplete_none_iff] at hc ⊢
    omega
  | some pk =>
    rw [depositsComplete_some_iff] at hc ⊢
    omega

theorem ceilDivDay_mul (d : Int) : ceilDivDay (dayMs * d) = d := by
  unfold ceilDivDay
  rw [neg_mul_eq_mul_neg, Int.mul_fdiv_cancel_left _ (by norm_num [dayMs]), neg_neg]

theorem daysUntilDate_some (t now : Int) :
    daysUntilDate (some t) now = some (Int.fdiv t dayMs - Int.fdiv now dayMs) := by
  have h : truncMidnight t - truncMidnight now =
      dayMs * (Int.fdiv t dayMs - Int.fdiv now dayMs) := by
    unfold truncMidnight; ring
  show some (ceilDivDay (truncMidnight t - truncMidnight now)) = _
  rw [h, ceilDivDay_mul]

theorem digitChars_all (s : String) : (digitChars s).all Char.isDigit = true := by
  rw [List.all_eq_true]
  intro c hc
  simpa using (List.mem_filter.mp hc).2

theorem status_eq_chain (c : CustomerRecord) (p : Option PackageInfo) (now : Int) :
    (determineStatus c p now).status =
      (if rule1 c then "Refund Pending"
       else if rule2 c now then "Trip Complete"
       else if rule3 c now then "Travel Pending"
       else if rule4 c now then "Booking Pending"
       else if rule5 c now then "Travel Rep Assigned"
       else if rule6 c p now then "Waiting For Travel Rep"
       else if rule7 c p then "Ready to Schedule"
       else if rule8 c p now then "Dates Scheduled"
       else if rule9 c then
         (if jsLe (daysUntilTravel c now) 75 then "Scheduled Not Confirmed - Must Reschedule"
          else "Scheduled Not Confirmed - Can Confirm")
       else "Deposit Needed") := by
  show (statusTriple c p now).1 = _
  unfold statusTriple
  by_cases h1 : rule1 c = true
  · rw [if_pos h1, if_pos h1]
  · rw [if_neg h1, if_neg h1]
    by_cases h2 : rule2 c now = true
    · rw [if_pos h2, if_pos h2]
    · rw [if_neg h2, if_neg h2]
      by_cases h3 : rule3 c now = true
      · rw [if_pos h3, if_pos h3]
      · rw [if_neg h3, if_neg h3]
        by_cases h4 : rule4 c now = true
        · rw [if_pos h4, if_pos h4]
        · rw [if_neg h4, if_neg h4]
          by_cases h5 : rule5 c now = true
          · rw [if_pos h5, if_pos h5]
          · rw [if_neg h5, if_neg h5]
            by_cases h6 : rule6 c p now = true
            · rw [if_pos h6, if_pos h6]
            · rw [if_neg h6, if_neg h6]
              by_cases h7 : rule7 c p = true
              · rw [if_pos h7, if_pos h7]
              · rw [if_neg h7, if_neg h7]
                by_cases h8 : rule8 c p now = true
                · rw [if_pos h8, if_pos h8]
                · rw [if_neg h8, if_neg h8]
                  by_cases h9 : rule9 c = true
                  · rw [if_pos h9, if_pos h9]
                    by_cases h75 : jsLe (daysUntilTravel c now) 75 = true
                    · rw [if_pos h75, if_pos h75]
                    · rw [if_neg h75, if_neg h75]
                  · rw [if_neg h9, if_neg h9]

theorem rule2_false_days {c : CustomerRecord} {now d : Int}
    (h2 : rule2 c now = false) (hd : daysUntilTravel c now = some d) : -7 ≤ d := by
  simp [rule2, hd, jsLt] at h2
  omega

/-! ### Claim C2 -/

/-- C2: for every customer record with a positive cash-back amount and no
final-document date, `determineStatus` returns status `'Refund Pending'`,
regardless of every other customer field and of the package info. -/
theorem C2_refund_pending (c : CustomerRecord) (p : Option PackageInfo) (now : Int)
    (a : Int) (ha : c.cash_back_amt = some a) (hpos : 0 < a)
    (hf : c.Fnl_Doc_MO_Date = none) :
    (determineStatus c p now).status = "Refund Pending" := by
  have h1 : rule1 c = true := by simp [rule1, ha, hf, hpos]
  rw [status_eq_chain, if_pos h1]

def cC2 : CustomerRecord :=
  { val_dep := some 100, conf_deposit := none, asgn_trv_dt := some 0,
    tm := some "Pat", conf_valid_code := some "CONFIRM", cash_back_amt := some 250,
    Fnl_Doc_MO_Date := none, date_print_enc := some 0, decReady := some true,
    date_htl_book := some 0, date_agncy_book := some 0, pkg_code2 := some "EM" }

theorem C2_refund_pending_witness :
    cC2.cash_back_amt = some 250 ∧ 0 < (250 : Int) ∧ cC2.Fnl_Doc_MO_Date = none ∧
    (determineStatus cC2 (some (mkPackageInfo 500 0)) 0).status = "Refund Pending" :=
  ⟨rfl, by decide, rfl,
   C2_refund_pending cC2 (some (mkPackageInfo 500 0)) 0 250 rfl (by decide) rfl⟩

/-! ### Claim C3 -/

def cC3 : CustomerRecord :=
  { val_dep := none, conf_deposit := none,
    asgn_trv_dt := some (-(3 * 86400000)),
    tm := none, conf_valid_code := none, cash_back_amt := none,
    Fnl_Doc_MO_Date := none, date_print_enc := none, decReady := none,
    date_htl_book := some 0, date_agncy_book := some 0, pkg_code2 := none }

/-- C3 counterexample: with the clock at `now = 0` and an assigned travel
date three days in the past, rules 1 and 2 do not match, both booking dates
are set, and `determineStatus` returns `'Travel Pending'` although
days-until-travel is `-3 < 0` — refuting the claim that rule 3 requires
`0 ≤ days-until-travel`. -/
theorem C3_travel_pending_counterexample :
    rule1 cC3 = false ∧ rule2 cC3 0 = false ∧
    cC3.date_htl_book.isSome = true ∧ cC3.date_agncy_book.isSome = true ∧
    (determineStatus cC3 none 0).status = "Travel Pending" ∧
    (determineStatus cC3 none 0).daysUntilTravel = some (-3) ∧
    ¬(0 ≤ (-3 : Int)) :=
  ⟨rfl, rfl, rfl, rfl, rfl, rfl, by decide⟩

/-- C3 amended: when neither rule 1 nor rule 2 matches, `determineStatus`
returns `'Travel Pending'` exactly when the hotel-booked and agency-booked
dates are both set and days-until-travel is non-null with
`-7 ≤ days-until-travel ≤ 14` (the code has no `0 ≤` lower bound; values in
`[-7, -1]` also yield `'Travel Pending'`). -/
theorem C3_travel_pending_amended (c : CustomerRecord) (p : Option PackageInfo)
    (now : Int) (h1 : rule1 c = false) (h2 : rule2 c now = false) :
    (determineStatus c p now).status = "Travel Pending" ↔
      (c.date_htl_book.isSome = true ∧ c.date_agncy_book.isSome = true ∧
        ∃ d, daysUntilTravel c now = some d ∧ -7 ≤ d ∧ d ≤ 14) := by
  have h1' : ¬(rule1 c = true) := by simp [h1]
  have h2' : ¬(rule2 c now = true) := by simp [h2]
  by_cases h3 : rule3 c now = true
  · have hs : (determineStatus c p now).status = "Travel Pending" := by
      rw [status_eq_chain, if_neg h1', if_neg h2', if_pos h3]
    rw [hs]
    simp only [true_iff]
    simp only [rule3, Bool.and_eq_true] at h3
    obtain ⟨⟨⟨hh, hag⟩, hsome⟩, hle⟩ := h3
    obtain ⟨d, hd⟩ := Option.isSome_iff_exists.mp hsome
    refine ⟨hh, hag, d, hd, rule2_false_days h2 hd, ?_⟩
    simpa [jsLe, hd] using hle
  · have hs : (determineStatus c p now).status ≠ "Travel Pending" := by
      rw [status_eq_chain, if_neg h1', if_neg h2', if_neg h3]
      split_ifs <;> decide
    constructor
    · intro h
      exact absurd h hs
    · rintro ⟨hh, hag, d, hd, hge, hle⟩
      exfalso
      apply h3
      have hsome : (daysUntilTravel c now).isSome = true := by simp [hd]
      simp [rule3, hh, hag, hsome, jsLe, hd, hle]

theorem C3_travel_pending_amended_witness :
    rule1 cC3 = false ∧ rule2 cC3 0 = false ∧
    ((determineStatus cC3 none 0).status = "Travel Pending" ↔
      (cC3.date_htl_book.isSome = true ∧ cC3.date_agncy_book.isSome = true ∧
        ∃ d, daysUntilTravel cC3 0 = some d ∧ -7 ≤ d ∧ d ≤ 14)) :=
  ⟨rfl, rfl, C3_travel_pending_amended cC3 none 0 rfl rfl⟩

/-! ### Claim C8 -/

/-- C8: `daysUntilDate` is `null` for a missing date; otherwise it is the
ceiling of the midnight-truncated difference divided by one day, which
equals the difference of the two calendar-day indices — in particular `1`
when the target date falls on the day after `now` and `0` when it falls on
the same day as `now`. -/
theorem C8_days_until_date (now t : Int) :
    daysUntilDate none now = none ∧
    daysUntilDate (some t) now =
      some (ceilDivDay (truncMidnight t - truncMidnight now)) ∧
    daysUntilDate (some t) now = some (Int.fdiv t dayMs - Int.fdiv now dayMs) ∧
    (Int.fdiv t dayMs = Int.fdiv now dayMs + 1 → daysUntilDate (some t) now = some 1) ∧
    (Int.fdiv t dayMs = Int.fdiv now dayMs → daysUntilDate (some t) now = some 0) := by
  refine ⟨rfl, rfl, daysUntilDate_some t now, ?_, ?_⟩
  · intro h
    rw [daysUntilDate_some, h]
    simp
  · intro h
    rw [daysUntilDate_some, h]
    simp

theorem C8_days_until_date_witness :
    daysUntilDate (some 86400000) 0 = some 1 ∧
    daysUntilDate (some 43200000) 0 = some 0 ∧
    daysUntilDate none 0 = none :=
  ⟨(C8_days_until_date 0 86400000).2.2.2.1 (by decide),
   (C8_days_until_date 0 43200000).2.2.2.2 (by decide),
   (C8_days_until_date 0 0).1⟩

/-! ### Claim C9 -/

/-- C9: `cleanPhone` keeps exactly the digit characters of its input; when
the digit string has exactly 11 characters and begins with `'1'` the leading
digit is dropped, otherwise the digit string is returned unchanged; the
empty input yields the empty string, and the two spec examples normalise to
`"8055551234"`. -/
theorem C9_clean_phone (p : String) :
    (cleanPhone p).data.all Char.isDigit = true ∧
    ((digitChars p).length = 11 → (digitChars p).head? = some '1' →
      (cleanPhone p).data = (digitChars p).drop 1) ∧
    (¬((digitChars p).length = 11 ∧ (digitChars p).head? = some '1') →
      (cleanPhone p).data = digitChars p) ∧
    cleanPhone "" = "" ∧
    cleanPhone "+1 (805) 555-1234" = "8055551234" ∧
    cleanPhone "805-555-1234" = "8055551234" := by
  refine ⟨?_, ?_, ?_, rfl, by decide, by decide⟩
  · by_cases hp : p = ""
    · subst hp
      rfl
    · by_cases hcond : (digitChars p).length = 11 ∧ (digitChars p).head? = some '1'
      · have hdata : (cleanPhone p).data = (digitChars p).drop 1 := by
          simp [cleanPhone, hp, hcond]
        rw [hdata, List.all_eq_true]
        intro ch hch
        exact List.all_eq_true.mp (digitChars_all p) ch (List.drop_subset _ _ hch)
      · have hdata : (cleanPhone p).data = digitChars p := by
          simp [cleanPhone, hp, hcond]
        rw [hdata]
        exact digitChars_all p
  · intro hlen hhead
    by_cases hp : p = ""
    · subst hp
      simp [digitChars] at hlen
    · simp [cleanPhone, hp, hlen, hhead]
  · intro hn
    by_cases hp : p = ""
    · subst hp
      rfl
    · simp only [cleanPhone, if_neg hp, if_neg hn]

theorem C9_clean_phone_witness :
    (cleanPhone "+1 (805) 555-1234").data = (digitChars "+1 (805) 555-1234").drop 1 ∧
    (cleanPhone "805-555-1234").data = digitChars "805-555-1234" :=
  ⟨(C9_clean_phone "+1 (805) 555-1234").2.1 (by decide) (by decide),
   (C9_clean_phone "805-555-1234").2.2.1 (by decide)⟩

/-! ### Claim C4 -/

/-- The deposit-completion policy as the spec states it (§4.2 step 2):
(a) expected known and total paid reaches it, or (b) exactly one of the two
required deposits is nonzero and either paid field alone reaches that single
required amount, or (c) package info unknown and either paid field is
nonzero. -/
def depositsCompleteSpec (c : CustomerRecord) (p : Option PackageInfo) : Prop :=
  (∃ pk, p = some pk ∧ pk.ref_dep + pk.deposit ≤ paidValDep c + paidConfDep c) ∨
  (∃ pk, p = some pk ∧
    ((pk.ref_dep ≠ 0 ∧ pk.deposit = 0 ∧
       (pk.ref_dep ≤ paidValDep c ∨ pk.ref_dep ≤ paidConfDep c)) ∨
     (pk.deposit ≠ 0 ∧ pk.ref_dep = 0 ∧
       (pk.deposit ≤ paidValDep c ∨ pk.deposit ≤ paidConfDep c)))) ∨
  (p = none ∧ (paidValDep c ≠ 0 ∨ paidConfDep c ≠ 0))

/-- C4: with nonnegative paid and required amounts and
`total_expected = ref_dep + deposit` (as `getPackageFromDestsel` constructs
it), `deposits.complete` holds exactly as the spec's reconciliation policy
states, and `deposits.remaining` is `max 0 (expected - total_paid)` when the
package is known and `null` otherwise. -/
theorem C4_deposit_reconciliation (c : CustomerRecord) (p : Option PackageInfo)
    (now : Int) (hp1 : 0 ≤ paidValDep c) (hp2 : 0 ≤ paidConfDep c)
    (hreq : ∀ pk, p = some pk →
      0 ≤ pk.ref_dep ∧ 0 ≤ pk.deposit ∧ pk.total_expected = pk.ref_dep + pk.deposit) :
    ((determineStatus c p now).deposits.complete = true ↔ depositsCompleteSpec c p) ∧
    (determineStatus c p now).deposits.remaining =
      p.map fun pk => max 0 (pk.ref_dep + pk.deposit - (paidValDep c + paidConfDep c)) := by
  rw [determineStatus_complete, determineStatus_remaining]
  cases p with
  | none =>
    refine ⟨?_, rfl⟩
    rw [depositsComplete_none_iff]
    simp only [depositsCompleteSpec]
    constructor
    · intro h
      right; right
      exact ⟨by simp, by omega⟩
    · rintro (⟨pk, hpk, _⟩ | ⟨pk, hpk, _⟩ | ⟨_, h⟩)
      · exact absurd hpk (by simp)
      · exact absurd hpk (by simp)
      · omega
  | some pk =>
    obtain ⟨hr, hd, hte⟩ := hreq pk rfl
    rw [depositsComplete_some_iff]
    constructor
    · simp only [depositsCompleteSpec, Option.some_inj]
      constructor
      · rintro (h | h | h)
        · exact Or.inl ⟨pk, rfl, by omega⟩
        · exact Or.inr (Or.inl ⟨pk, rfl, Or.inl ⟨by omega, h.2.1, h.2.2⟩⟩)
        · exact Or.inr (Or.inl ⟨pk, rfl, Or.inr ⟨by omega, h.2.1, h.2.2⟩⟩)
      · rintro (⟨pk', hpk, h⟩ | ⟨pk', hpk, h⟩ | ⟨hnone, _⟩)
        · cases hpk
          exact Or.inl (by omega)
        · cases hpk
          rcases h with ⟨h1, h2, h3⟩ | ⟨h1, h2, h3⟩
          · exact Or.inr (Or.inl ⟨by omega, h2, h3⟩)
          · exact Or.inr (Or.inr ⟨by omega, h2, h3⟩)
        · exact absurd hnone (by simp)
    · simp [hte]

def cC4 : CustomerRecord :=
  { val_dep := none, conf_deposit := some 500, asgn_trv_dt := none,
    tm := none, conf_valid_code := none, cash_back_amt := none,
    Fnl_Doc_MO_Date := none, date_print_enc := none, decReady := none,
    date_htl_book := none, date_agncy_book := none, pkg_code2 := some "EM" }

theorem C4_deposit_reconciliation_witness :
    ((determineStatus cC4 (some (mkPackageInfo 500 0)) 0).deposits.complete = true ↔
      depositsCompleteSpec cC4 (some (mkPackageInfo 500 0))) ∧
    (determineStatus cC4 (some (mkPackageInfo 500 0)) 0).deposits.remaining =
      (some (mkPackageInfo 500 0)).map
        (fun pk => max 0 (pk.ref_dep + pk.deposit - (paidValDep cC4 + paidConfDep cC4))) :=
  C4_deposit_reconciliation cC4 (some (mkPackageInfo 500 0)) 0 (by decide) (by decide)
    (by
      intro pk h
      rw [Option.some_inj] at h
      subst h
      exact ⟨by decide, by decide, rfl⟩)

/-! ### Claim C5 -/

/-- C5: with nonnegative deposit amounts, raising either paid-deposit field
(every other input fixed) never turns `deposits.complete` from `true` to
`false`. -/
theorem C5_deposit_complete_monotone (c : CustomerRecord) (p : Option PackageInfo)
    (now : Int) (v w : Int)
    (hp1 : 0 ≤ paidValDep c) (hp2 : 0 ≤ paidConfDep c)
    (hreq : ∀ pk, p = some pk → 0 ≤ pk.ref_dep ∧ 0 ≤ pk.deposit)
    (hv : paidValDep c ≤ v) (hw : paidConfDep c ≤ w)
    (hc : (determineStatus c p now).deposits.complete = true) :
    (determineStatus { c with val_dep := some v } p now).deposits.complete = true ∧
    (determineStatus { c with conf_deposit := some w } p now).deposits.complete = true := by
  rw [determineStatus_complete] at hc ⊢
  rw [determineStatus_complete]
  constructor
  · exact @depositsComplete_mono c _ p hv (le_refl _) hc
  · exact @depositsComplete_mono c _ p (le_refl _) hw hc

def cC5 : CustomerRecord :=
  { val_dep := some 500, conf_deposit := none, asgn_trv_dt := none,
    tm := none, conf_valid_code := none, cash_back_amt := none,
    Fnl_Doc_MO_Date := none, date_print_enc := none, decReady := none,
    date_htl_book := none, date_agncy_book := none, pkg_code2 := none }

theorem C5_deposit_complete_monotone_witness :
    (determineStatus { cC5 with val_dep := some 600 }
        (some (mkPackageInfo 500 0)) 0).deposits.complete = true ∧
    (determineStatus { cC5 with conf_deposit := some 100 }
        (some (mkPackageInfo 500 0)) 0).deposits.complete = true :=
  C5_deposit_complete_monotone cC5 (some (mkPackageInfo 500 0)) 0 600 100
    (by decide) (by decide)
    (by
      intro pk h
      rw [Option.some_inj] at h
      subst h
      exact ⟨by decide, by decide⟩)
    (by decide) (by decide) (by decide)

/-! ### Claim C6 -/

/-- C6: two customer records that agree on the paid-deposit fields
(`val_dep`, `conf_deposit`) and are paired with the same package info get
the same `deposits.complete`, however the travel-date fields (or any other
field, or the clock) differ. -/
theorem C6_deposit_complete_ignores_travel_dates (c1 c2 : CustomerRecord)
    (p : Option PackageInfo) (now1 now2 : Int)
    (hv : c1.val_dep = c2.val_dep) (hc : c1.conf_deposit = c2.conf_deposit) :
    (determineStatus c1 p now1).deposits.complete =
      (determineStatus c2 p now2).deposits.complete := by
  rw [determineStatus_complete, determineStatus_complete]
  unfold depositsComplete paidValDep paidConfDep
  rw [hv, hc]

def cC6a : CustomerRecord :=
  { val_dep := some 100, conf_deposit := some 200, asgn_trv_dt := some 864000000,
    tm := none, conf_valid_code := none, cash_back_amt := none,
    Fnl_Doc_MO_Date := some 0, date_print_enc := some 0, decReady := none,
    date_htl_book := some 0, date_agncy_book := some 0, pkg_code2 := none }

def cC6b : CustomerRecord :=
  { val_dep := some 100, conf_deposit := some 200, asgn_trv_dt := none,
    tm := none, conf_valid_code := none, cash_back_amt := none,
    Fnl_Doc_MO_Date := none, date_print_enc := none, decReady := none,
    date_htl_book := none, date_agncy_book := none, pkg_code2 := none }

theorem C6_deposit_complete_ignores_travel_dates_witness :
    (determineStatus cC6a (some (mkPackageInfo 200 100)) 0).deposits.complete =
      (determineStatus cC6b (some (mkPackageInfo 200 100)) 7776000000).deposits.complete :=
  C6_deposit_complete_ignores_travel_dates cC6a cC6b (some (mkPackageInfo 200 100))
    0 7776000000 rfl rfl

/-! ### Claim C7 -/

/-- C7: whenever rules 1-8 do not match and rule 9's guard holds (travel
date set, confirmation code not `'CONFIRM'`, decision-ready not `true`),
`daysUntilTravel` is non-null, so rule 9's unguarded `daysUntilTravel <= 75`
comparison never sees a null value. -/
theorem C7_rule9_days_defined (c : CustomerRecord) (p : Option PackageInfo) (now : Int)
    (h1 : rule1 c = false) (h2 : rule2 c now = false) (h3 : rule3 c now = false)
    (h4 : rule4 c now = false) (h5 : rule5 c now = false)
    (h6 : rule6 c p now = false) (h7 : rule7 c p = false)
    (h8 : rule8 c p now = false) (hg : rule9 c = true) :
    (daysUntilTravel c now).isSome = true ∧
    (determineStatus c p now).daysUntilTravel.isSome = true := by
  simp only [rule9, Bool.and_eq_true] at hg
  obtain ⟨⟨ha, _⟩, _⟩ := hg
  obtain ⟨d, hd⟩ := Option.isSome_iff_exists.mp ha
  have : daysUntilTravel c now = some (ceilDivDay (truncMidnight d - truncMidnight now)) := by
    simp [daysUntilTravel, daysUntilDate, hd]
  rw [determineStatus_days, this]
  exact ⟨rfl, rfl⟩

def cC7 : CustomerRecord :=
  { val_dep := none, conf_deposit := none, asgn_trv_dt := some 8640000000,
    tm := none, conf_valid_code := none, cash_back_amt := none,
    Fnl_Doc_MO_Date := none, date_print_enc := none, decReady := none,
    date_htl_book := none, date_agncy_book := none, pkg_code2 := none }

theorem C7_rule9_days_defined_witness :
    rule9 cC7 = true ∧
    (daysUntilTravel cC7 0).isSome = true ∧
    (determineStatus cC7 none 0).daysUntilTravel.isSome = true :=
  ⟨rfl, C7_rule9_days_defined cC7 none 0 rfl rfl rfl rfl rfl rfl rfl rfl rfl⟩

/-! ### Claim C10 -/

/-- C10: a found package requiring no deposits (`ref_dep = 0`, `deposit = 0`,
expected total `0`) makes `deposits.complete` true for every customer with
nonnegative paid amounts — even both zero; consequently such a customer with
no assigned travel date on which rules 1-6 do not match is classified
`'Ready to Schedule'`, never `'Deposit Needed'`. -/
theorem C10_zero_deposit_complete (c : CustomerRecord) (pk : PackageInfo) (now : Int)
    (h0 : pk.ref_dep = 0) (h0' : pk.deposit = 0) (hte : pk.total_expected = 0)
    (hp1 : 0 ≤ paidValDep c) (hp2 : 0 ≤ paidConfDep c) :
    (determineStatus c (some pk) now).deposits.complete = true ∧
    (c.asgn_trv_dt = none → rule1 c = false → rule2 c now = false →
      rule3 c now = false → rule4 c now = false → rule5 c now = false →
      rule6 c (some pk) now = false →
      (determineStatus c (some pk) now).status = "Ready to Schedule" ∧
      (determineStatus c (some pk) now).status ≠ "Deposit Needed") := by
  have hcomp : (determineStatus c (some pk) now).deposits.complete = true := by
    rw [determineStatus_complete, depositsComplete_some_iff]
    left
    omega
  refine ⟨hcomp, ?_⟩
  intro hna hr1 hr2 hr3 hr4 hr5 _
  have h7 : rule7 c (some pk) = true := by
    rw [determineStatus_complete] at hcomp
    simp [rule7, hcomp, hna]
  have hr6' : rule6 c (some pk) now = false := by
    simp [rule6, hna]
  have hs : (determineStatus c (some pk) now).status = "Ready to Schedule" := by
    rw [status_eq_chain, if_neg (by simp [hr1]), if_neg (by simp [hr2]),
      if_neg (by simp [hr3]), if_neg (by simp [hr4]), if_neg (by simp [hr5]),
      if_neg (by simp [hr6']), if_pos h7]
  rw [hs]
  exact ⟨rfl, by decide⟩

def cC10 : CustomerRecord :=
  { val_dep := none, conf_deposit := none, asgn_trv_dt := none,
    tm := none, conf_valid_code := none, cash_back_amt := none,
    Fnl_Doc_MO_Date := none, date_print_enc := none, decReady := none,
    date_htl_book := none, date_agncy_book := none, pkg_code2 := some "EM" }

theorem C10_zero_deposit_complete_witness :
    (determineStatus cC10 (some (mkPackageInfo 0 0)) 0).deposits.complete = true ∧
    (determineStatus cC10 (some (mkPackageInfo 0 0)) 0).status = "Ready to Schedule" ∧
    (determineStatus cC10 (some (mkPackageInfo 0 0)) 0).status ≠ "Deposit Needed" :=
  ⟨(C10_zero_deposit_complete cC10 (mkPackageInfo 0 0) 0 rfl rfl rfl
      (by decide) (by decide)).1,
   (C10_zero_deposit_complete cC10 (mkPackageInfo 0 0) 0 rfl rfl rfl
      (by decide) (by decide)).2 rfl rfl rfl rfl rfl rfl rfl⟩

/-! ### Claim C1 -/

theorem firstMatch_unique {f : Nat → Bool} {m : Nat} (hm : f m = true)
    (hprev : ∀ j, j < m → f j = false) :
    ∀ k, f k = true → (∀ j, j < k → f j = false) → k = m := by
  intro k hk hkmin
  rcases Nat.lt_trichotomy k m with hlt | heq | hgt
  · exact absurd hk (by simp [hprev k hlt])
  · exact heq
  · exact absurd hm (by simp [hkmin m hgt])

/-- C1: for every customer record and package info (including none),
`determineStatus` selects its status by strict ordered first match over the
ten rule guards: there is exactly one rule index whose guard holds while all
earlier guards fail, the returned status is that rule's status code, and it
is one of the enumerated codes (rule 9 contributing its two variants, rule
10 being the default). -/
theorem C1_status_first_match (c : CustomerRecord) (p : Option PackageInfo) (now : Int) :
    ∃ i, i < 10 ∧ ruleCond c p now i = true ∧
      (∀ j, j < i → ruleCond c p now j = false) ∧
      (determineStatus c p now).status = ruleStatus c now i ∧
      ruleStatus c now i ∈ statusCodes ∧
      (∀ k, ruleCond c p now k = true →
        (∀ j, j < k → ruleCond c p now j = false) → k = i) := by
  by_cases h1 : rule1 c = true
  · have hprev : ∀ j, j < 0 → ruleCond c p now j = false := fun j hj => absurd hj (by omega)
    exact ⟨0, by omega, h1, hprev,
      by rw [status_eq_chain, if_pos h1];
                        rfl,
      by simp [ruleStatus, statusCodes],
      firstMatch_unique h1 hprev⟩
  · rw [Bool.not_eq_true] at h1
    by_cases h2 : rule2 c now = true
    · have hprev : ∀ j, j < 1 → ruleCond c p now j = false := by
        intro j hj
        interval_cases j
        exact h1
      exact ⟨1, by omega, h2, hprev,
        by rw [status_eq_chain, if_neg (by simp [h1]), if_pos h2];
                        rfl,
        by simp [ruleStatus, statusCodes],
        firstMatch_unique h2 hprev⟩
    · rw [Bool.not_eq_true] at h2
      by_cases h3 : rule3 c now = true
      · have hprev : ∀ j, j < 2 → ruleCond c p now j = false := by
          intro j hj
          interval_cases j
          · exact h1
          · exact h2
        exact ⟨2, by omega, h3, hprev,
          by rw [status_eq_chain, if_neg (by simp [h1]), if_neg (by simp [h2]), if_pos h3];
                        rfl,
          by simp [ruleStatus, statusCodes],
          firstMatch_unique h3 hprev⟩
      · rw [Bool.not_eq_true] at h3
        by_cases h4 : rule4 c now = true
        · have hprev : ∀ j, j < 3 → ruleCond c p now j = false := by
            intro j hj
            interval_cases j
            · exact h1
            · exact h2
            · exact h3
          exact ⟨3, by omega, h4, hprev,
            by rw [status_eq_chain, if_neg (by simp [h1]), if_neg (by simp [h2]),
              if_neg (by simp [h3]), if_pos h4];
                        rfl,
            by simp [ruleStatus, statusCodes],
            firstMatch_unique h4 hprev⟩
        · rw [Bool.not_eq_true] at h4
          by_cases h5 : rule5 c now = true
          · have hprev : ∀ j, j < 4 → ruleCond c p now j = false := by
              intro j hj
              interval_cases j
              · exact h1
              · exact h2
              · exact h3
              · exact h4
            exact ⟨4, by omega, h5, hprev,
              by rw [status_eq_chain, if_neg (by simp [h1]), if_neg (by simp [h2]),
                if_neg (by simp [h3]), if_neg (by simp [h4]), if_pos h5];
                        rfl,
              by simp [ruleStatus, statusCodes],
              firstMatch_unique h5 hprev⟩
          · rw [Bool.not_eq_true] at h5
            by_cases h6 : rule6 c p now = true
            · have hprev : ∀ j, j < 5 → ruleCond c p now j = false := by
                intro j hj
                interval_cases j
                · exact h1
                · exact h2
                · exact h3
                · exact h4
                · exact h5
              exact ⟨5, by omega, h6, hprev,
                by rw [status_eq_chain, if_neg (by simp [h1]), if_neg (by simp [h2]),
                  if_neg (by simp [h3]), if_neg (by simp [h4]), if_neg (by simp [h5]),
                  if_pos h6];
                        rfl,
                by simp [ruleStatus, statusCodes],
                firstMatch_unique h6 hprev⟩
            · rw [Bool.not_eq_true] at h6
              by_cases h7 : rule7 c p = true
              · have hprev : ∀ j, j < 6 → ruleCond c p now j = false := by
                  intro j hj
                  interval_cases j
                  · exact h1
                  · exact h2
                  · exact h3
                  · exact h4
                  · exact h5
                  · exact h6
                exact ⟨6, by omega, h7, hprev,
                  by rw [status_eq_chain, if_neg (by simp [h1]), if_neg (by simp [h2]),
                    if_neg (by simp [h3]), if_neg (by simp [h4]), if_neg (by simp [h5]),
                    if_neg (by simp [h6]), if_pos h7];
                        rfl,
                  by simp [ruleStatus, statusCodes],
                  firstMatch_unique h7 hprev⟩
              · rw [Bool.not_eq_true] at h7
                by_cases h8 : rule8 c p now = true
                · have hprev : ∀ j, j < 7 → ruleCond c p now j = false := by
                    intro j hj
                    interval_cases j
                    · exact h1
                    · exact h2
                    · exact h3
                    · exact h4
                    · exact h5
                    · exact h6
                    · exact h7
                  exact ⟨7, by omega, h8, hprev,
                    by rw [status_eq_chain, if_neg (by simp [h1]), if_neg (by simp [h2]),
                      if_neg (by simp [h3]), if_neg (by simp [h4]), if_neg (by simp [h5]),
                      if_neg (by simp [h6]), if_neg (by simp [h7]), if_pos h8];
                        rfl,
                    by simp [ruleStatus, statusCodes],
                    firstMatch_unique h8 hprev⟩
                · rw [Bool.not_eq_true] at h8
                  by_cases h9 : rule9 c = true
                  · have hprev : ∀ j, j < 8 → ruleCond c p now j = false := by
                      intro j hj
                      interval_cases j
                      · exact h1
                      · exact h2
                      · exact h3
                      · exact h4
                      · exact h5
                      · exact h6
                      · exact h7
                      · exact h8
                    have hstat : (determineStatus c p now).status = ruleStatus c now 8 := by
                      rw [status_eq_chain, if_neg (by simp [h1]), if_neg (by simp [h2]),
                        if_neg (by simp [h3]), if_neg (by simp [h4]), if_neg (by simp [h5]),
                        if_neg (by simp [h6]), if_neg (by simp [h7]), if_neg (by simp [h8]),
                        if_pos h9]
                      rfl
                    have hmem : ruleStatus c now 8 ∈ statusCodes := by
                      have hrs : ruleStatus c now 8 =
                          if jsLe (daysUntilTravel c now) 75 then
                            "Scheduled Not Confirmed - Must Reschedule"
                          else "Scheduled Not Confirmed - Can Confirm" := rfl
                      rw [hrs]
                      split_ifs <;> simp [statusCodes]
                    exact ⟨8, by omega, h9, hprev, hstat, hmem, firstMatch_unique h9 hprev⟩
                  · rw [Bool.not_eq_true] at h9
                    have hprev : ∀ j, j < 9 → ruleCond c p now j = false := by
                      intro j hj
                      interval_cases j
                      · exact h1
                      · exact h2
                      · exact h3
                      · exact h4
                      · exact h5
                      · exact h6
                      · exact h7
                      · exact h8
                      · exact h9
                    have hstat : (determineStatus c p now).status = ruleStatus c now 9 := by
                      rw [status_eq_chain, if_neg (by simp [h1]), if_neg (by simp [h2]),
                        if_neg (by simp [h3]), if_neg (by simp [h4]), if_neg (by simp [h5]),
                        if_neg (by simp [h6]), if_neg (by simp [h7]), if_neg (by simp [h8]),
                        if_neg (by simp [h9])]
                      rfl
                    exact ⟨9, by omega, rfl, hprev, hstat,
                      by simp [ruleStatus, statusCodes],
                      firstMatch_unique rfl hprev⟩
